import Mathlib

/-!
Shallow embedding of `src/python/pyeclib/core.py` (pyeclib erasure-coding
drivers) and verification of the specification's claims about it.

Conventions of the embedding:
* A Python byte string is a `List Nat` (`ByteSeq`); one `Nat` per byte.
* A Python function that can raise returns `Except PyError _`.
* The module imports only `pyeclib_c` and `math`; the name `ECDriverError`
  used in every `raise` statement is never defined or imported, so executing
  such a `raise` actually raises a `NameError` for the unbound name
  `ECDriverError`.  The embedding models those branches as
  `.error (.nameError "ECDriverError")`.
* The C extension `pyeclib_c` is an external engine (out of scope per the
  spec); it is modelled as a record of abstract functions (`PyeclibC`)
  that the driver code calls.
* `fragment_size = math.ceil(len(bytes) / float(self.k))` is modelled as the
  exact integer ceiling `(len + k - 1) / k`, which is the value the float
  computation denotes.
* Python sequence slicing `b[start:stop]` (negative indices counting from the
  end, out-of-range indices clamped) is modelled by `pySlice`.
-/

deriving instance DecidableEq for Except

namespace PyeclibCore

/-- A Python byte string: one `Nat` per byte. -/
abbrev ByteSeq := List Nat

/-- Python-level failures relevant to this module.  The constructors
`configError`, `fragmentCountError`, `encodingError` and `decodingError`
exist only to state the specification's documented error taxonomy; the code
model never produces them (see the unbound-name remark above).
`decodingError` carries the fault it would wrap per the spec's words. -/
inductive PyError where
  | nameError : String → PyError
  | indexError : PyError
  | zeroDivisionError : PyError
  | engineFault : String → PyError
  | configError : PyError
  | fragmentCountError : PyError
  | encodingError : PyError
  | decodingError : PyError → PyError
deriving DecidableEq, Repr

/-- True exactly on the spec's `DecodingError` (wrapping some fault). -/
def PyError.isDecodingErr : PyError → Bool
  | .decodingError _ => true
  | _ => false

/-- Python sequence slicing `l[start:stop]`: a negative index counts from the
end, indices are clamped to `[0, len l]`, and the result is empty when the
normalized start is not below the normalized stop. -/
def pySlice (l : ByteSeq) (start stop : Int) : ByteSeq :=
  let n : Int := l.length
  let s : Int := if start < 0 then max (n + start) 0 else min start n
  let e : Int := if stop < 0 then max (n + stop) 0 else min stop n
  (l.take e.toNat).drop s.toNat

/-- The abstract external coding engine `pyeclib_c` (a C extension, out of
scope for the spec): each field is one of its entry points, taking the opaque
handle (a `Nat`) where the code passes `self.handle`.  Any call may raise. -/
structure PyeclibC where
  init : Nat → Nat → Nat → String → Except PyError Nat
  encode : Nat → ByteSeq → Except PyError (List ByteSeq)
  fragments_to_string : Nat → List ByteSeq → Except PyError (Option ByteSeq)
  get_fragment_partition :
      Nat → List ByteSeq → Except PyError (List ByteSeq × List ByteSeq × List Nat)
  decode :
      Nat → List ByteSeq → List ByteSeq → List Nat → Nat → Except PyError (List ByteSeq)
  reconstruct :
      Nat → List ByteSeq → List ByteSeq → List Nat → Nat → Nat → Except PyError ByteSeq
  get_required_fragments : List Nat → Except PyError (List Nat)

/-! ## ECPyECLibDriver (the coded driver) -/

/-- `self.ec_rs_vand` -/
def ec_rs_vand : String := "rs_vand"
/-- `self.ec_rs_cauchy_orig` -/
def ec_rs_cauchy_orig : String := "rs_cauchy_orig"
/-- `self.ec_flat_xor_3` -/
def ec_flat_xor_3 : String := "flat_xor_3"
/-- `self.ec_flat_xor_4` -/
def ec_flat_xor_4 : String := "flat_xor_4"
/-- `self.ec_types` -/
def ec_types : List String := [ec_rs_vand, ec_rs_cauchy_orig, ec_flat_xor_3, ec_flat_xor_4]
/-- `self.ec_valid_xor_params`: assigned in `__init__` and, exactly as in the
source, never consulted anywhere afterwards. -/
def ec_valid_xor_params : List String := ["12_6_4", "10_5_3"]
/-- `self.ec_rs_vand_best_w` -/
def ec_rs_vand_best_w : Nat := 16
/-- `self.ec_default_w` -/
def ec_default_w : Nat := 32
/-- `self.ec_rs_cauchy_best_w` -/
def ec_rs_cauchy_best_w : Nat := 4

/-- The attributes of a constructed `ECPyECLibDriver` instance.  `hd` is an
`Option` because the final `else` arm of the constructor's chain assigns only
`self.w`, leaving `self.hd` unset (that arm is unreachable for validated
types). -/
structure ECPyECLibDriver where
  k : Nat
  m : Nat
  ec_type : String
  w : Nat
  hd : Option Nat
  handle : Nat
deriving DecidableEq, Repr

/-- The `if`/`elif` chain of `ECPyECLibDriver.__init__` assigning `self.w`
and `self.hd` from the validated type. -/
def schemeWHd (ec_type : String) (m : Nat) : Nat × Option Nat :=
  if ec_type = ec_rs_vand then (ec_rs_vand_best_w, some (m + 1))
  else if ec_type = ec_rs_cauchy_orig then (ec_rs_cauchy_best_w, some (m + 1))
  else if ec_type = ec_flat_xor_3 then (ec_default_w, some 3)
  else if ec_type = ec_flat_xor_4 then (ec_default_w, some 4)
  else (ec_default_w, none)

/-- `ECPyECLibDriver.__init__(k, m, type)`: validate the type against
`ec_types` (raising the unbound name `ECDriverError` otherwise), derive
`w`/`hd`, then call `pyeclib_c.init`.  Note: `ec_valid_xor_params` is never
checked. -/
def ECPyECLibDriver.init (eng : PyeclibC) (k m : Nat) (ec_type : String) :
    Except PyError ECPyECLibDriver :=
  if ec_type ∈ ec_types then
    let wh := schemeWHd ec_type m
    match eng.init k m wh.1 ec_type with
    | .ok handle => .ok ⟨k, m, ec_type, wh.1, wh.2, handle⟩
    | .error e => .error e
  else
    .error (.nameError "ECDriverError")

/-- `ECPyECLibDriver.encode`: pure delegation to `pyeclib_c.encode`. -/
def ECPyECLibDriver.encode (eng : PyeclibC) (d : ECPyECLibDriver) (b : ByteSeq) :
    Except PyError (List ByteSeq) :=
  eng.encode d.handle b

/-- `ECPyECLibDriver.decode`: try `pyeclib_c.fragments_to_string` inside
`try/except` (any fault there is replaced by the `raise ECDriverError`, i.e.
an unbound-name error); if it returned `None`, partition, repair via
`pyeclib_c.decode` with `len(data_frags[0])` (an `IndexError` when the data
list is empty), and convert the repaired fragments; faults on that second
path are outside the `try` block and propagate unwrapped. -/
def ECPyECLibDriver.decode (eng : PyeclibC) (d : ECPyECLibDriver)
    (fragment_payloads : List ByteSeq) : Except PyError (Option ByteSeq) :=
  match eng.fragments_to_string d.handle fragment_payloads with
  | .error _ => .error (.nameError "ECDriverError")
  | .ok (some ret_string) => .ok (some ret_string)
  | .ok none =>
    match eng.get_fragment_partition d.handle fragment_payloads with
    | .error e => .error e
    | .ok (data_frags, parity_frags, missing_idxs) =>
      match data_frags with
      | [] => .error .indexError
      | f0 :: rest =>
        match eng.decode d.handle (f0 :: rest) parity_frags missing_idxs f0.length with
        | .error e => .error e
        | .ok decoded_fragments =>
          match eng.fragments_to_string d.handle decoded_fragments with
          | .error e => .error e
          | .ok ret_string => .ok ret_string

/-- One observable engine interaction made by `ECPyECLibDriver.reconstruct`. -/
inductive EngCall where
  | partitionCall : EngCall
  | reconstructCall : Nat → EngCall
deriving DecidableEq, Repr

/-- The `while` loop of `ECPyECLibDriver.reconstruct`: pop the next target
index, re-partition the (unchanged) `fragment_payloads`, call the engine's
single-target reconstruct with `len(data_frags[0])`, and append the result.
Alongside the result we record the trace of engine calls that were issued. -/
def reconstructLoop (eng : PyeclibC) (handle : Nat) (fragment_payloads : List ByteSeq) :
    List Nat → Except PyError (List ByteSeq) × List EngCall
  | [] => (.ok [], [])
  | index :: rest =>
    match eng.get_fragment_partition handle fragment_payloads with
    | .error e => (.error e, [.partitionCall])
    | .ok (data_frags, parity_frags, missing_idxs) =>
      match data_frags with
      | [] => (.error .indexError, [.partitionCall])
      | f0 :: dtail =>
        match eng.reconstruct handle (f0 :: dtail) parity_frags missing_idxs index
            f0.length with
        | .error e => (.error e, [.partitionCall, .reconstructCall index])
        | .ok reconstructed =>
          let next := reconstructLoop eng handle fragment_payloads rest
          (next.1.map (fun l => reconstructed :: l),
           .partitionCall :: .reconstructCall index :: next.2)

/-- The caller-visible outcome of one `ECPyECLibDriver.reconstruct` call:
the returned value (or the fault that aborted the loop), the sequence of
engine calls issued, and the final states of the two arguments the caller
passed — `indexes_to_reconstruct.sort()` mutates the caller's list in place,
while `fragment_payloads` is never written to. -/
structure ReconstructOutcome where
  result : Except PyError (List ByteSeq)
  calls : List EngCall
  fragment_payloads_after : List ByteSeq
  indexes_to_reconstruct_after : List Nat
deriving DecidableEq, Repr

/-- `ECPyECLibDriver.reconstruct(fragment_payloads, indexes_to_reconstruct)`:
sort the caller's target list in place, copy it, then run the loop. -/
def ECPyECLibDriver.reconstruct (eng : PyeclibC) (d : ECPyECLibDriver)
    (fragment_payloads : List ByteSeq) (indexes_to_reconstruct : List Nat) :
    ReconstructOutcome :=
  let sorted := List.insertionSort (· ≤ ·) indexes_to_reconstruct
  let looped := reconstructLoop eng d.handle fragment_payloads sorted
  ⟨looped.1, looped.2, fragment_payloads, sorted⟩

/-! ## ECStripingDriver -/

/-- The attributes of a constructed `ECStripingDriver` instance. -/
structure ECStripingDriver where
  k : Nat
  m : Nat
deriving DecidableEq, Repr

/-- `ECStripingDriver.__init__(k, m)`: any `m ≠ 0` executes
`raise ECDriverError(...)`, an unbound-name failure. -/
def ECStripingDriver.init (k m : Nat) : Except PyError ECStripingDriver :=
  if m ≠ 0 then .error (.nameError "ECDriverError") else .ok ⟨k, m⟩

/-- The `for i in range(k-1)` loop of `ECStripingDriver.encode`: each
iteration appends `bytes[offset:fragment_size]` — the slice's upper bound is
the constant `fragment_size`, exactly as in the source — then advances
`offset` by `fragment_size`.  Returns the fragments and the final offset. -/
def stripeLoop (b : ByteSeq) (fragment_size : Nat) :
    Nat → Nat → List ByteSeq × Nat
  | 0, offset => ([], offset)
  | n + 1, offset =>
    let rest := stripeLoop b fragment_size n (offset + fragment_size)
    (pySlice b (offset : Int) (fragment_size : Int) :: rest.1, rest.2)

/-- `ECStripingDriver.encode(bytes)`:
`fragment_size = ceil(len(bytes)/k)`;
`last_fragment_size = len(bytes) - (fragment_size*k - 1)` (parenthesized as
in the source); `k-1` loop iterations; then append
`bytes[offset:last_fragment_size]`.  `k = 0` would divide by zero. -/
def ECStripingDriver.encode (d : ECStripingDriver) (b : ByteSeq) :
    Except PyError (List ByteSeq) :=
  if d.k = 0 then .error .zeroDivisionError
  else
    let fragment_size : Nat := (b.length + d.k - 1) / d.k
    let last_fragment_size : Int :=
      (b.length : Int) - ((fragment_size : Int) * (d.k : Int) - 1)
    let looped := stripeLoop b fragment_size (d.k - 1) 0
    .ok (looped.1 ++ [pySlice b (looped.2 : Int) last_fragment_size])

/-- `ECStripingDriver.decode(fragment_payloads)`: raise (the unbound name
`ECDriverError`) unless exactly `k` payloads are given, else concatenate them
in the supplied order (`ret_string += fragment`). -/
def ECStripingDriver.decode (d : ECStripingDriver) (fragment_payloads : List ByteSeq) :
    Except PyError ByteSeq :=
  if fragment_payloads.length ≠ d.k then .error (.nameError "ECDriverError")
  else .ok (fragment_payloads.foldl (fun acc f => acc ++ f) [])

/-- `ECStripingDriver.reconstruct`: raise (the unbound name `ECDriverError`)
unless exactly `k` payloads are given, else return them unchanged. -/
def ECStripingDriver.reconstruct (d : ECStripingDriver)
    (available_fragment_payloads : List ByteSeq)
    (missing_fragment_indexes : List Nat) : Except PyError (List ByteSeq) :=
  if available_fragment_payloads.length ≠ d.k then .error (.nameError "ECDriverError")
  else .ok available_fragment_payloads

/-! ## Concrete instances used by witnesses and counterexamples -/

/-- The byte string `b"hello world"`. -/
def helloWorld : ByteSeq := [104, 101, 108, 108, 111, 32, 119, 111, 114, 108, 100]

/-- A total engine whose every call succeeds: partitions always report one
data fragment `[9]`, no parity fragments and nothing missing, and the
single-target reconstruct of index `i` returns the fragment `[i]`. -/
def engOk : PyeclibC where
  init := fun _ _ _ _ => .ok 0
  encode := fun _ b => .ok [b]
  fragments_to_string := fun _ _ => .ok none
  get_fragment_partition := fun _ _ => .ok ([[9]], [], [])
  decode := fun _ _ _ _ _ => .ok []
  reconstruct := fun _ _ _ _ i _ => .ok [i]
  get_required_fragments := fun l => .ok l

/-- An engine whose fragment partition always fails. -/
def engPartitionFault : PyeclibC :=
  { engOk with get_fragment_partition := fun _ _ => .error (.engineFault "down") }

/-- An engine that reports a repair is needed (`fragments_to_string` gives
`None` on the original payloads), partitions into one data fragment `[7]`
with missing index `2`, and whose repair `decode` then faults. -/
def engRepairFault : PyeclibC :=
  { engOk with
    get_fragment_partition := fun _ _ => .ok ([[7]], [], [2])
    decode := fun _ _ _ _ _ => .error (.engineFault "boom") }

/-- An engine that reports a repair is needed and repairs successfully:
the repaired fragments are `[[9], [9]]`, and `fragments_to_string` maps the
original payload `[[1]]` to `None` but the repaired set to the string `[9, 9]`. -/
def engRepairOk : PyeclibC :=
  { engOk with
    get_fragment_partition := fun _ _ => .ok ([[7]], [], [2])
    decode := fun _ _ _ _ _ => .ok [[9], [9]]
    fragments_to_string := fun _ frags =>
      if frags = [[9], [9]] then .ok (some [9, 9]) else .ok none }

/-- An engine whose partition reports no surviving data fragments at all. -/
def engNoData : PyeclibC :=
  { engOk with get_fragment_partition := fun _ _ => .ok ([], [], [0, 1]) }

/-- A driver instance as built by a successful `ECPyECLibDriver.init` with
`k = 2`, `m = 1`, type `rs_vand` against an engine handing out handle `0`. -/
def drv210 : ECPyECLibDriver := ⟨2, 1, ec_rs_vand, 16, some 2, 0⟩

/-- An engine whose `fragments_to_string` always faults. -/
def engFtsFault : PyeclibC :=
  { engOk with fragments_to_string := fun _ _ => .error (.engineFault "fts") }

/-- In a list of target indexes, every entry below `k` (a data index) sits at
an earlier position than every entry at or above `k` (a parity index). -/
def dataBeforeParity (k : Nat) (l : List Nat) : Prop :=
  ∀ i j : Fin l.length, l.get i < k → k ≤ l.get j → (i : Nat) < (j : Nat)

/-! ## Helper lemmas -/

/-- A list sorted ascending places all entries below `k` before all entries
at or above `k`. -/
theorem sorted_dataBeforeParity (k : Nat) (l : List Nat)
    (hs : l.Sorted (· ≤ ·)) : dataBeforeParity k l := by
  intro i j hik hkj
  rcases lt_trichotomy (i : Nat) (j : Nat) with h | h | h
  · exact h
  · have hij : i = j := Fin.ext h
    subst hij
    omega
  · have hle : l.get j ≤ l.get i := hs.rel_get_of_lt (Fin.lt_def.mpr h)
    omega

/-- When the engine partition always yields data fragments `f0 :: dtail` and
every single-target reconstruct of index `i` succeeds with `g i`, the
reconstruction loop over a list of targets returns their images under `g`
and issues one partition call then one reconstruct call per target. -/
theorem reconstructLoop_eq_of_ok (eng : PyeclibC) (h : Nat) (ps : List ByteSeq)
    (f0 : ByteSeq) (dtail pf : List ByteSeq) (mi : List Nat) (g : Nat → ByteSeq)
    (hpart : eng.get_fragment_partition h ps = .ok (f0 :: dtail, pf, mi))
    (hrec : ∀ i, eng.reconstruct h (f0 :: dtail) pf mi i f0.length = .ok (g i))
    (l : List Nat) :
    reconstructLoop eng h ps l =
      (.ok (l.map g), l.flatMap fun i => [.partitionCall, .reconstructCall i]) := by
  induction l with
  | nil => rfl
  | cons i rest ih =>
    simp only [reconstructLoop, hpart, hrec i, ih, List.map_cons, List.flatMap_cons]
    rfl

/-- When the engine partition yields an empty data-fragment list, the first
iteration of the reconstruction loop hits `len(data_frags[0])` and aborts
with an `IndexError`. -/
theorem reconstructLoop_noData (eng : PyeclibC) (h : Nat) (ps : List ByteSeq)
    (pf : List ByteSeq) (mi : List Nat) (x : Nat) (rest : List Nat)
    (hpart : eng.get_fragment_partition h ps = .ok ([], pf, mi)) :
    reconstructLoop eng h ps (x :: rest) = (.error .indexError, [.partitionCall]) := by
  simp only [reconstructLoop, hpart]

/-! ## Claims -/

/-- C1: the claim says decoding the `k` fragments of `encode(b)` returns `b`,
and in particular `StripingDriver(k=3, m=0).encode(b"hello world")` yields
fragments that concatenate back to `b"hello world"`.  The code slices
`bytes[offset:fragment_size]` (upper bound `fragment_size`, not
`offset + fragment_size`) and sizes the last fragment as
`len - (fragment_size*k - 1)`, so the three fragments are
`[b"hell", b"", b""]` and decoding them returns `b"hell"`, not the original
buffer. -/
theorem claim_C1_striping_roundtrip_fails :
    ECStripingDriver.encode ⟨3, 0⟩ helloWorld =
      .ok [[104, 101, 108, 108], [], []] ∧
    ECStripingDriver.decode ⟨3, 0⟩ [[104, 101, 108, 108], [], []] =
      .ok [104, 101, 108, 108] ∧
    [104, 101, 108, 108] ≠ helloWorld := by decide

/-- C2: the claim says encode on a buffer of length `L` yields `k` fragments
with lengths `ceil(L/k)` for the first `k-1` and the remainder last, summing
to `L`.  On `b"hello world"` (`L = 11`, `k = 3`) the code's fragments have
lengths `[4, 0, 0]`: they sum to `4`, not `11`, and differ from the claimed
`[4, 4, 3]`. -/
theorem claim_C2_striping_sizes_fail :
    (ECStripingDriver.encode ⟨3, 0⟩ helloWorld).map (fun fs => fs.map List.length) =
      .ok [4, 0, 0] ∧
    ([4, 0, 0] : List Nat).sum ≠ helloWorld.length ∧
    ([4, 0, 0] : List Nat) ≠ [4, 4, 3] := by decide

/-- C3: `ECPyECLibDriver.reconstruct` sorts the target indexes ascending and
processes them left to right, issuing exactly one fragment-partition call
followed by one single-target engine reconstruct call per target; the sorted
order puts every data index (`< k`) before every parity index (`≥ k`), and
the returned list holds one fragment per target in ascending target order. -/
theorem claim_C3_reconstruct_ordering (eng : PyeclibC) (d : ECPyECLibDriver)
    (ps : List ByteSeq) (ts : List Nat) (f0 : ByteSeq) (dtail pf : List ByteSeq)
    (mi : List Nat) (g : Nat → ByteSeq)
    (hpart : eng.get_fragment_partition d.handle ps = .ok (f0 :: dtail, pf, mi))
    (hrec : ∀ i, eng.reconstruct d.handle (f0 :: dtail) pf mi i f0.length = .ok (g i)) :
    (ECPyECLibDriver.reconstruct eng d ps ts).result =
      .ok ((List.insertionSort (· ≤ ·) ts).map g) ∧
    (ECPyECLibDriver.reconstruct eng d ps ts).calls =
      (List.insertionSort (· ≤ ·) ts).flatMap
        (fun i => [.partitionCall, .reconstructCall i]) ∧
    (List.insertionSort (· ≤ ·) ts).Perm ts ∧
    (List.insertionSort (· ≤ ·) ts).Sorted (· ≤ ·) ∧
    dataBeforeParity d.k (List.insertionSort (· ≤ ·) ts) := by
  have hloop := reconstructLoop_eq_of_ok eng d.handle ps f0 dtail pf mi g hpart hrec
    (List.insertionSort (· ≤ ·) ts)
  refine ⟨?_, ?_, List.perm_insertionSort _ ts, List.sorted_insertionSort _ ts,
    sorted_dataBeforeParity d.k _ (List.sorted_insertionSort _ ts)⟩
  · show (reconstructLoop eng d.handle ps (List.insertionSort (· ≤ ·) ts)).1 = _
    rw [hloop]
  · show (reconstructLoop eng d.handle ps (List.insertionSort (· ≤ ·) ts)).2 = _
    rw [hloop]

/-- C3 witness: with a concrete engine that reconstructs index `i` to the
fragment `[i]`, targets supplied as `[2, 0, 1]` with `k = 2` are processed
as `[0, 1, 2]`, each with one partition call then one reconstruct call. -/
theorem claim_C3_reconstruct_ordering_witness :
    (ECPyECLibDriver.reconstruct engOk drv210 [[5]] [2, 0, 1]).result =
      .ok [[0], [1], [2]] ∧
    (ECPyECLibDriver.reconstruct engOk drv210 [[5]] [2, 0, 1]).calls =
      [.partitionCall, .reconstructCall 0, .partitionCall, .reconstructCall 1,
       .partitionCall, .reconstructCall 2] ∧
    ([0, 1, 2] : List Nat).Perm [2, 0, 1] ∧
    ([0, 1, 2] : List Nat).Sorted (· ≤ ·) ∧
    dataBeforeParity 2 [0, 1, 2] :=
  claim_C3_reconstruct_ordering engOk drv210 [[5]] [2, 0, 1] [9] [] [] []
    (fun i => [i]) rfl (fun _ => rfl)

/-- C4: the claim says an XOR scheme with `(k, m) = (8, 4)` — outside the
allow-list `{(12,6), (10,5)}` — fails with `ConfigError` at construction.
The constructor defines `ec_valid_xor_params` but never consults it:
construction with `flat_xor_3`, `k = 8`, `m = 4` passes validation and
proceeds to the engine `init` call, so no configuration error is raised. -/
theorem claim_C4_xor_allowlist_not_enforced :
    ECPyECLibDriver.init engOk 8 4 ec_flat_xor_3 =
      .ok ⟨8, 4, ec_flat_xor_3, 32, some 3, 0⟩ ∧
    "8_4_3" ∉ ec_valid_xor_params := by decide

/-- C5 counterexample: the claim says any underlying fault on either decode
path is surfaced as a `DecodingError` wrapping that fault.  With an engine
whose fast path reports a repair is needed and whose repair `decode` then
faults, the driver surfaces the raw engine fault itself — the repair path
lies outside the `try` block — not any wrapping `DecodingError`. -/
theorem claim_C5_decode_wrap_counterexample :
    ECPyECLibDriver.decode engRepairFault drv210 [[1]] =
      .error (.engineFault "boom") ∧
    (PyError.engineFault "boom").isDecodingErr = false := by decide

/-- C5 (amended): decode first attempts direct reassembly; a fault there is
replaced by the driver's `raise ECDriverError` (an unbound-name failure, not
a wrapper); if the engine instead returns `None`, the driver partitions the
fragments, repairs with the partitioned data/parity fragments, missing-index
list and `len(data_frags[0])`, and reassembles — and any fault on that
repair path propagates to the caller unwrapped. -/
theorem claim_C5_decode_paths (eng : PyeclibC) (d : ECPyECLibDriver)
    (ps : List ByteSeq) (s : ByteSeq) (e : PyError) (f0 : ByteSeq)
    (dtail pf : List ByteSeq) (mi : List Nat) (out : List ByteSeq) :
    (eng.fragments_to_string d.handle ps = .ok (some s) →
      ECPyECLibDriver.decode eng d ps = .ok (some s)) ∧
    (eng.fragments_to_string d.handle ps = .error e →
      ECPyECLibDriver.decode eng d ps = .error (.nameError "ECDriverError")) ∧
    (eng.fragments_to_string d.handle ps = .ok none →
      eng.get_fragment_partition d.handle ps = .error e →
      ECPyECLibDriver.decode eng d ps = .error e) ∧
    (eng.fragments_to_string d.handle ps = .ok none →
      eng.get_fragment_partition d.handle ps = .ok (f0 :: dtail, pf, mi) →
      eng.decode d.handle (f0 :: dtail) pf mi f0.length = .error e →
      ECPyECLibDriver.decode eng d ps = .error e) ∧
    (eng.fragments_to_string d.handle ps = .ok none →
      eng.get_fragment_partition d.handle ps = .ok (f0 :: dtail, pf, mi) →
      eng.decode d.handle (f0 :: dtail) pf mi f0.length = .ok out →
      ECPyECLibDriver.decode eng d ps = eng.fragments_to_string d.handle out) := by
  refine ⟨?_, ?_, ?_, ?_, ?_⟩
  · intro h1
    simp only [ECPyECLibDriver.decode, h1]
  · intro h1
    simp only [ECPyECLibDriver.decode, h1]
  · intro h1 h2
    simp only [ECPyECLibDriver.decode, h1, h2]
  · intro h1 h2 h3
    simp only [ECPyECLibDriver.decode, h1, h2, h3]
  · intro h1 h2 h3
    simp only [ECPyECLibDriver.decode, h1, h2, h3]
    cases eng.fragments_to_string d.handle out <;> rfl

/-- C5 witness: a concrete engine takes the repair path ( `None` from the
fast path), repairs to `[[9], [9]]`, and the driver's answer is exactly the
engine's conversion of the repaired fragments. -/
theorem claim_C5_decode_paths_witness :
    engRepairOk.fragments_to_string 0 [[1]] = .ok none ∧
    engRepairOk.get_fragment_partition 0 [[1]] = .ok ([[7]], [], [2]) ∧
    engRepairOk.decode 0 [[7]] [] [2] 1 = .ok [[9], [9]] ∧
    ECPyECLibDriver.decode engRepairOk drv210 [[1]] =
      engRepairOk.fragments_to_string 0 [[9], [9]] :=
  ⟨by decide, by decide, by decide,
   (claim_C5_decode_paths engRepairOk drv210 [[1]] [] (.nameError "x") [7] [] [] [2]
      [[9], [9]]).2.2.2.2 (by decide) (by decide) (by decide)⟩

/-- C6 counterexample: the claim says decode with a wrong payload count fails
with `FragmentCountError`; with `k = 3` and two payloads it fails with the
unbound-name `ECDriverError` failure instead. -/
theorem claim_C6_count_error_counterexample :
    ECStripingDriver.decode ⟨3, 0⟩ [[1], [2]] = .error (.nameError "ECDriverError") ∧
    ECStripingDriver.decode ⟨3, 0⟩ [[1], [2]] ≠ .error .fragmentCountError := by decide

/-- C6 (amended): striping decode returns the verbatim in-order concatenation
of the payloads exactly when their count equals `k`; any other count fails,
before any result is produced, with the unbound-name `ECDriverError` failure
(not a `FragmentCountError`). -/
theorem claim_C6_decode_concat_iff (d : ECStripingDriver) (ps : List ByteSeq) :
    (ECStripingDriver.decode d ps = .ok (ps.foldl (fun acc f => acc ++ f) []) ↔
      ps.length = d.k) ∧
    (ps.length ≠ d.k →
      ECStripingDriver.decode d ps = .error (.nameError "ECDriverError")) := by
  unfold ECStripingDriver.decode
  by_cases h : ps.length = d.k
  · simp [h]
  · simp [h]

/-- C6 witness: with `k = 2` and two payloads the concatenation is returned
and the count condition holds. -/
theorem claim_C6_decode_concat_iff_witness :
    (ECStripingDriver.decode ⟨2, 0⟩ [[1], [2]] = .ok [1, 2] ↔
      ([[1], [2]] : List ByteSeq).length = 2) ∧
    (([[1], [2]] : List ByteSeq).length ≠ 2 →
      ECStripingDriver.decode ⟨2, 0⟩ [[1], [2]] = .error (.nameError "ECDriverError")) :=
  claim_C6_decode_concat_iff ⟨2, 0⟩ [[1], [2]]

/-- C7 counterexample: the claim says a failing operation leaves the caller's
target-index list exactly as supplied.  `reconstruct` sorts the caller's
list in place before the first engine call; with an engine whose partition
faults, the call fails yet the caller's `[2, 0]` has become `[0, 2]`. -/
theorem claim_C7_mutation_counterexample :
    (ECPyECLibDriver.reconstruct engPartitionFault drv210 [[5]] [2, 0]).result =
      .error (.engineFault "down") ∧
    (ECPyECLibDriver.reconstruct engPartitionFault drv210 [[5]]
        [2, 0]).indexes_to_reconstruct_after = [0, 2] ∧
    ([0, 2] : List Nat) ≠ [2, 0] := by decide

/-- C7 (amended): the fragment list supplied to `reconstruct` is never
mutated, but the caller's target-index list is sorted in place — on success
and on failure alike — so after any call it is an ascending permutation of
what was supplied rather than the supplied order. -/
theorem claim_C7_mutation_after_reconstruct (eng : PyeclibC) (d : ECPyECLibDriver)
    (ps : List ByteSeq) (ts : List Nat) :
    (ECPyECLibDriver.reconstruct eng d ps ts).fragment_payloads_after = ps ∧
    (ECPyECLibDriver.reconstruct eng d ps ts).indexes_to_reconstruct_after.Perm ts ∧
    (ECPyECLibDriver.reconstruct eng d ps ts).indexes_to_reconstruct_after.Sorted
      (· ≤ ·) :=
  ⟨rfl, List.perm_insertionSort _ ts, List.sorted_insertionSort _ ts⟩

/-- C8: for every successfully constructed coded driver, `w` and `hd` are
the scheme-determined values — `rs_vand` gives `w = 16`, `hd = m + 1`;
`rs_cauchy_orig` gives `w = 4`, `hd = m + 1`; `flat_xor_3` gives `w = 32`,
`hd = 3`; `flat_xor_4` gives `w = 32`, `hd = 4` — and the scheme is one of
the four validated names, so `w`/`hd` never come from user input. -/
theorem claim_C8_w_hd_from_scheme (eng : PyeclibC) (k m : Nat) (t : String)
    (d : ECPyECLibDriver) (h : ECPyECLibDriver.init eng k m t = .ok d) :
    (t = ec_rs_vand → d.w = 16 ∧ d.hd = some (m + 1)) ∧
    (t = ec_rs_cauchy_orig → d.w = 4 ∧ d.hd = some (m + 1)) ∧
    (t = ec_flat_xor_3 → d.w = 32 ∧ d.hd = some 3) ∧
    (t = ec_flat_xor_4 → d.w = 32 ∧ d.hd = some 4) ∧
    t ∈ ec_types := by
  simp only [ECPyECLibDriver.init] at h
  by_cases hm : t ∈ ec_types
  · rw [if_pos hm] at h
    cases heng : eng.init k m (schemeWHd t m).1 t with
    | error e => rw [heng] at h; simp at h
    | ok hdl =>
      rw [heng] at h
      simp only [Except.ok.injEq] at h
      subst h
      refine ⟨?_, ?_, ?_, ?_, hm⟩ <;> intro ht <;> subst ht <;>
        simp [schemeWHd, ec_rs_vand, ec_rs_cauchy_orig, ec_flat_xor_3, ec_flat_xor_4,
          ec_rs_vand_best_w, ec_rs_cauchy_best_w, ec_default_w]
  · rw [if_neg hm] at h; simp at h

/-- A driver as built by `ECPyECLibDriver.init` with `k = 4`, `m = 2`,
type `rs_vand`, handle `0`. -/
def drvRsVand : ECPyECLibDriver := ⟨4, 2, ec_rs_vand, 16, some 3, 0⟩

/-- C8 witness: constructing with `rs_vand`, `k = 4`, `m = 2` succeeds and
yields `w = 16`, `hd = 3`. -/
theorem claim_C8_w_hd_from_scheme_witness :
    (ec_rs_vand = ec_rs_vand → drvRsVand.w = 16 ∧ drvRsVand.hd = some (2 + 1)) ∧
    (ec_rs_vand = ec_rs_cauchy_orig → drvRsVand.w = 4 ∧ drvRsVand.hd = some (2 + 1)) ∧
    (ec_rs_vand = ec_flat_xor_3 → drvRsVand.w = 32 ∧ drvRsVand.hd = some 3) ∧
    (ec_rs_vand = ec_flat_xor_4 → drvRsVand.w = 32 ∧ drvRsVand.hd = some 4) ∧
    ec_rs_vand ∈ ec_types :=
  claim_C8_w_hd_from_scheme engOk 4 2 ec_rs_vand drvRsVand (by decide)

/-- C9: every declared failure branch of the module executes
`raise ECDriverError(...)`, but `ECDriverError` is never defined or imported
in the module, so each branch fails with the unbound-name error — no
operation of this module raises an error of the documented taxonomy. -/
theorem claim_C9_unbound_name_failures :
    (∀ (eng : PyeclibC) (k m : Nat) (t : String), t ∉ ec_types →
      ECPyECLibDriver.init eng k m t = .error (.nameError "ECDriverError")) ∧
    (∀ (eng : PyeclibC) (d : ECPyECLibDriver) (ps : List ByteSeq) (e : PyError),
      eng.fragments_to_string d.handle ps = .error e →
      ECPyECLibDriver.decode eng d ps = .error (.nameError "ECDriverError")) ∧
    (∀ k m : Nat, m ≠ 0 →
      ECStripingDriver.init k m = .error (.nameError "ECDriverError")) ∧
    (∀ (d : ECStripingDriver) (ps : List ByteSeq), ps.length ≠ d.k →
      ECStripingDriver.decode d ps = .error (.nameError "ECDriverError")) ∧
    (∀ (d : ECStripingDriver) (ps : List ByteSeq) (mi : List Nat),
      ps.length ≠ d.k →
      ECStripingDriver.reconstruct d ps mi = .error (.nameError "ECDriverError")) := by
  refine ⟨?_, ?_, ?_, ?_, ?_⟩
  · intro eng k m t ht
    simp only [ECPyECLibDriver.init, if_neg ht]
  · intro eng d ps e he
    simp only [ECPyECLibDriver.decode, he]
  · intro k m hm
    simp only [ECStripingDriver.init, if_pos hm]
  · intro d ps hl
    simp only [ECStripingDriver.decode, if_pos hl]
  · intro d ps mi hl
    simp only [ECStripingDriver.reconstruct, if_pos hl]

/-- C9 witness: each failure branch, exercised at a concrete input, yields
the unbound-name `ECDriverError` failure. -/
theorem claim_C9_unbound_name_failures_witness :
    ECPyECLibDriver.init engOk 3 2 "bogus" = .error (.nameError "ECDriverError") ∧
    ECPyECLibDriver.decode engFtsFault drv210 [[1]] =
      .error (.nameError "ECDriverError") ∧
    ECStripingDriver.init 3 1 = .error (.nameError "ECDriverError") ∧
    ECStripingDriver.decode ⟨3, 0⟩ [[1], [2]] = .error (.nameError "ECDriverError") ∧
    ECStripingDriver.reconstruct ⟨3, 0⟩ [[1], [2]] [] =
      .error (.nameError "ECDriverError") :=
  ⟨claim_C9_unbound_name_failures.1 engOk 3 2 "bogus" (by decide),
   claim_C9_unbound_name_failures.2.1 engFtsFault drv210 [[1]]
     (.engineFault "fts") rfl,
   claim_C9_unbound_name_failures.2.2.1 3 1 (by decide),
   claim_C9_unbound_name_failures.2.2.2.1 ⟨3, 0⟩ [[1], [2]] (by decide),
   claim_C9_unbound_name_failures.2.2.2.2 ⟨3, 0⟩ [[1], [2]] [] (by decide)⟩

/-- C10: whenever the engine asks for a repair (`None` from the fast path)
and the fragment partition reports no surviving data fragments, decode and
every reconstruct call with at least one target abort with the `IndexError`
from `len(data_frags[0])` instead of performing the repair. -/
theorem claim_C10_empty_data_indexerror (eng : PyeclibC) (d : ECPyECLibDriver)
    (ps pf : List ByteSeq) (mi : List Nat) (t : Nat) (ts : List Nat)
    (hfts : eng.fragments_to_string d.handle ps = .ok none)
    (hpart : eng.get_fragment_partition d.handle ps = .ok ([], pf, mi)) :
    ECPyECLibDriver.decode eng d ps = .error .indexError ∧
    (ECPyECLibDriver.reconstruct eng d ps (t :: ts)).result = .error .indexError := by
  constructor
  · simp only [ECPyECLibDriver.decode, hfts, hpart]
  · show (reconstructLoop eng d.handle ps
      (List.insertionSort (· ≤ ·) (t :: ts))).1 = .error .indexError
    cases hs : List.insertionSort (· ≤ ·) (t :: ts) with
    | nil =>
      exfalso
      have hperm := List.perm_insertionSort (fun a b : Nat => a ≤ b) (t :: ts)
      rw [hs] at hperm
      have := hperm.symm.eq_nil
      simp at this
    | cons x rest =>
      rw [reconstructLoop_noData eng d.handle ps pf mi x rest hpart]

/-- C10 witness: an engine partitioning to no data fragments makes decode
and a one-target reconstruct fail with `IndexError`. -/
theorem claim_C10_empty_data_indexerror_witness :
    ECPyECLibDriver.decode engNoData drv210 [[1]] = .error .indexError ∧
    (ECPyECLibDriver.reconstruct engNoData drv210 [[1]] [1]).result =
      .error .indexError :=
  claim_C10_empty_data_indexerror engNoData drv210 [[1]] [] [0, 1] 1 [] rfl rfl

end PyeclibCore
